import Mathlib

/-!
Shallow embedding of the DVD protocol handler (`src/libavformat/dvd.c` and the
earlier revision `src/unnamed/part_000`) from beandog/ffmpeg-dvd.

The handler exposes a DVD title's VOB sector stream as a flat byte stream.
External libdvdread calls (`DVDOpen`, `ifoOpen`, `DVDOpenFile`, `DVDFileSize`,
`DVDReadBlocks`) are modelled as a pure oracle structure `Lib`; the mutable
`DVDContext` struct is explicit state; observable library interactions
(handle acquisitions and releases, sector-read requests) are recorded as an
event trace so that resource-lifecycle properties can be stated.
-/

namespace DvdProto

/-- `DVD_VIDEO_LB_LEN` from dvd.c: the fixed 2048-byte sector size. -/
def DVD_VIDEO_LB_LEN : Int := 2048

/-- `AVERROR(EIO)` as returned by every failing step of `dvd_open` (EIO = 5, AVERROR negates). -/
def eioErr : Int := -5

/-- `AVERROR(EFAULT)` returned by `dvd_read`/`dvd_seek` on a null context or disc handle (EFAULT = 14). -/
def efaultErr : Int := -14

/-- `AVERROR(EINVAL)` returned by `dvd_seek` for any whence (EINVAL = 22). -/
def einvalErr : Int := -22

/-- `AVERROR_EOF = -MKTAG('E','O','F',' ')`, FFmpeg's end-of-stream code. -/
def eofErr : Int := -541478725

/-- `DVD_READ_TITLE_VOBS` from libdvdread's `dvd_read_domain_t` (value 3). -/
def DVD_READ_TITLE_VOBS : Nat := 3

/-- One entry of the volume title table (`title_info_t`): the fields dvd.c reads. -/
structure TTEntry where
  title_set_nr : Int
  vts_ttn : Int

/-- The volume title table `tt_srpt_t`: entry count and entries (indexed as in C by `title - 1`). -/
structure TTSrpt where
  nr_of_srpts : Int
  title : Int → TTEntry

/-- The fields of `pgc_t` that dvd.c reads. `cell_playback` models pointer presence. -/
structure Pgc where
  cell_playback : Bool
  nr_of_cells : Int
  nr_of_programs : Int

/-- One `pgci_srp_t` entry: holds a possibly-null program chain pointer. -/
structure PgciSrp where
  pgc : Option Pgc

/-- The title-set program chain table `pgcit_t`, indexed by `pgcn - 1`. -/
structure Pgcit where
  pgci_srp : Int → PgciSrp

/-- One `ptt_info_t`: the program chain number dvd.c reads from `ptt[0]`. -/
structure PttUnit where
  pgcn : Int

/-- One `ttu_t` entry of the part-of-title table, indexed by `ttn - 1`. -/
structure PttTitle where
  ptt : Int → PttUnit

/-- The `vts_ptt_srpt_t` table; its `title` pointer may be null. -/
structure PttSrpt where
  title : Option (Int → PttTitle)

/-- An `ifo_handle_t` as dvd.c uses it: volume-level fields (`vmgi_mat`, `tt_srpt`)
and title-set fields (`vtsi_mat`, `vts_pgcit`, `vts_ptt_srpt`), each nullable.
`hid` is the handle identity used in the event trace. -/
structure IfoHandle where
  hid : Nat
  vmgi_mat : Bool
  tt_srpt : Option TTSrpt
  vtsi_mat : Bool
  vts_pgcit : Option Pgcit
  vts_ptt_srpt : Option PttSrpt

/-- The libdvdread oracle: pure models of the library calls dvd.c makes.
Disc and file handles are `Nat` identifiers. `DVDReadBlocks` takes the possibly
null file pointer exactly as the C code passes it, unchecked. -/
structure Lib where
  DVDOpen : String → Option Nat
  ifoOpen : Nat → Int → Option IfoHandle
  DVDOpenFile : Nat → Int → Nat → Option Nat
  DVDFileSize : Nat → Int
  DVDReadBlocks : Option Nat → Int → Int → Int

/-- The `DVDContext` private-data struct of dvd.c. `cells`/`chapters` exist only
in the dvd.c revision; the part_000 revision simply never writes them. -/
structure DVDContext where
  dvd : Option Nat
  vmg : Option IfoHandle
  vts : Option IfoHandle
  file : Option Nat
  blocks : Int
  cells : Int
  chapters : Int
  size : Int
  offset : Int
  title_set : Int
  title : Int

/-- The context as FFmpeg hands it to `dvd_open`: zero-initialized private data,
with the `title` AVOption set to the user's value (default -1). -/
def initCtx (title : Int) : DVDContext :=
  { dvd := none, vmg := none, vts := none, file := none, blocks := 0,
    cells := 0, chapters := 0, size := 0, offset := 0, title_set := 0,
    title := title }

/-- Observable interactions with the navigation library. -/
inductive Ev where
  | acqDisc (h : Nat)
  | acqIfo (h : Nat)
  | acqFile (h : Nat)
  | relIfo (h : Nat)
  | relDisc (h : Nat)
  | readReq (f : Option Nat) (off : Int) (cnt : Int)
  deriving DecidableEq

/-- True exactly on the release events (`ifoClose`, `DVDClose`). -/
def Ev.isRelease : Ev → Bool
  | .relIfo _ => true
  | .relDisc _ => true
  | _ => false

/-- The distinct `return` sites of `dvd_open` (all return `AVERROR(EIO)` in C;
the step records which check failed, as the code distinguishes by log message). -/
inductive OpenStep where
  | discOpen
  | probe
  | vmgLoad
  | titleCount
  | vtsLoad
  | vtsSanity
  | fileOpen
  | pgcBroken
  | pgcEmpty
  deriving DecidableEq

/-- The spec's error taxonomy (§7): `DiscOpenError`, `NavigationError`, `IOError`. -/
inductive ErrKind where
  | DiscOpenError
  | NavigationError
  | IOError
  deriving DecidableEq

/-- The spec's assignment (§4.1 steps 2-9, §7) of an error class to each failing
open step of the code: step 2 is `DiscOpenError`; the navigation-metadata checks
(probe, volume info, title count, title-set info and its sanity checks,
program-chain checks) are `NavigationError`; the title-file open is `IOError`. -/
def errClassOf : OpenStep → ErrKind
  | .discOpen => .DiscOpenError
  | .probe => .NavigationError
  | .vmgLoad => .NavigationError
  | .titleCount => .NavigationError
  | .vtsLoad => .NavigationError
  | .vtsSanity => .NavigationError
  | .pgcBroken => .NavigationError
  | .pgcEmpty => .NavigationError
  | .fileOpen => .IOError

/-- `av_strstart(path, "dvd:", &diskname)`: strip the scheme prefix if present. -/
def dvdStrip (path : String) : String :=
  if path.startsWith "dvd:" then path.drop ("dvd:".length) else path

/-- `check_disc_info` (identical in both revisions): probe `ifoOpen(dvd, 0)`,
returning -1 if it fails, 0 otherwise. The probed handle is acquired but never
stored or closed. -/
def check_disc_info (lib : Lib) (d : Nat) : Int × List Ev :=
  match lib.ifoOpen d 0 with
  | none => (-1, [])
  | some hp => (0, [Ev.acqIfo hp.hid])

/-- `dvd_read` (identical in dvd.c lines 211-234 and part_000 lines 156-179):
guard against a null context or disc handle with `AVERROR(EFAULT)`; otherwise
request one sector at `offset`, increment `offset`, and return `AVERROR_EOF`
when zero blocks came back or the new offset has reached `blocks`, else the
byte count `blocks_read * 2048`. -/
def dvd_read (lib : Lib) (ctx : Option DVDContext) : Int × Option DVDContext × List Ev :=
  match ctx with
  | none => (efaultErr, none, [])
  | some dvd =>
    match dvd.dvd with
    | none => (efaultErr, some dvd, [])
    | some _ =>
      let blocks := lib.DVDReadBlocks dvd.file dvd.offset 1
      let dvd := { dvd with offset := dvd.offset + 1 }
      let len := blocks * DVD_VIDEO_LB_LEN
      if len = 0 ∨ dvd.offset ≥ dvd.blocks then
        (eofErr, some dvd, [Ev.readReq dvd.file (dvd.offset - 1) 1])
      else
        (len, some dvd, [Ev.readReq dvd.file (dvd.offset - 1) 1])

/-- `dvd_seek` (dvd.c lines 236-256, part_000 lines 181-201): `AVERROR(EFAULT)`
on a null context or disc handle, otherwise unconditionally `AVERROR(EINVAL)`;
no field is written. -/
def dvd_seek (ctx : Option DVDContext) (pos whence : Int) : Int × Option DVDContext :=
  match ctx with
  | none => (efaultErr, none)
  | some dvd =>
    match dvd.dvd with
    | none => (efaultErr, some dvd)
    | some _ => (einvalErr, some dvd)

/-- `dvd_close` (identical in both revisions): `ifoClose(vmg)` if non-null, then
`ifoClose(vts)` if non-null, then `DVDClose(dvd)` if non-null; returns 0. No
context field is written, so the handles stay recorded in the struct. -/
def dvd_close (ctx : DVDContext) : Int × DVDContext × List Ev :=
  let t1 := match ctx.vmg with
    | none => ([] : List Ev)
    | some h => [Ev.relIfo h.hid]
  let t2 := match ctx.vts with
    | none => ([] : List Ev)
    | some h => [Ev.relIfo h.hid]
  let t3 := match ctx.dvd with
    | none => ([] : List Ev)
    | some d => [Ev.relDisc d]
  (0, ctx, t1 ++ t2 ++ t3)

/-- `dvd_open` of the dvd.c revision (lines 111-208). Mirrors the source's
assign-then-check order: each handle is stored in the context before its null
check, nothing acquired is ever released in this function, and all failures
return `AVERROR(EIO)` (tagged here with the failing step). -/
def dvd_open (lib : Lib) (path : String) (ctx : DVDContext) :
    Int × Option OpenStep × DVDContext × List Ev :=
  let diskname := dvdStrip path
  match lib.DVDOpen diskname with
  | none => (eioErr, some OpenStep.discOpen, { ctx with dvd := none }, [])
  | some d =>
    let ctx := { ctx with dvd := some d }
    let pr := check_disc_info lib d
    let tr := Ev.acqDisc d :: pr.2
    if pr.1 < 0 then
      (eioErr, some OpenStep.probe, ctx, tr)
    else
      let vmgOpt := lib.ifoOpen d 0
      let ctx := { ctx with vmg := vmgOpt }
      let tr := tr ++ (match vmgOpt with
        | none => ([] : List Ev)
        | some hv => [Ev.acqIfo hv.hid])
      match vmgOpt with
      | none => (eioErr, some OpenStep.vmgLoad, ctx, tr)
      | some vmgH =>
        if vmgH.vmgi_mat = false then
          (eioErr, some OpenStep.vmgLoad, ctx, tr)
        else
          match vmgH.tt_srpt with
          | none => (eioErr, some OpenStep.vmgLoad, ctx, tr)
          | some tt =>
            let num_title_idx := tt.nr_of_srpts
            if num_title_idx < 1 then
              (eioErr, some OpenStep.titleCount, ctx, tr)
            else
              let ctx := if ctx.title < 1 ∨ ctx.title > num_title_idx then
                  { ctx with title := 1 }
                else ctx
              let ctx := { ctx with title_set := (tt.title (ctx.title - 1)).title_set_nr }
              let vtsOpt := lib.ifoOpen d ctx.title_set
              let ctx := { ctx with vts := vtsOpt }
              let tr := tr ++ (match vtsOpt with
                | none => ([] : List Ev)
                | some hv => [Ev.acqIfo hv.hid])
              match vtsOpt with
              | none => (eioErr, some OpenStep.vtsLoad, ctx, tr)
              | some vtsH =>
                if vtsH.vtsi_mat = false then
                  (eioErr, some OpenStep.vtsLoad, ctx, tr)
                else
                  match vtsH.vts_pgcit, vtsH.vts_ptt_srpt with
                  | none, _ => (eioErr, some OpenStep.vtsSanity, ctx, tr)
                  | some _, none => (eioErr, some OpenStep.vtsSanity, ctx, tr)
                  | some pgcit, some pttS =>
                    match pttS.title with
                    | none => (eioErr, some OpenStep.vtsSanity, ctx, tr)
                    | some pttTitles =>
                      match lib.DVDOpenFile d ctx.title_set DVD_READ_TITLE_VOBS with
                      | none => (eioErr, some OpenStep.fileOpen, { ctx with file := none }, tr)
                      | some f =>
                        let ctx := { ctx with file := some f }
                        let tr := tr ++ [Ev.acqFile f]
                        let ttn := (tt.title (ctx.title - 1)).vts_ttn
                        match (pgcit.pgci_srp (((pttTitles (ttn - 1)).ptt 0).pgcn - 1)).pgc with
                        | none => (eioErr, some OpenStep.pgcBroken, ctx, tr)
                        | some pgc =>
                          if pgc.cell_playback = false then
                            (eioErr, some OpenStep.pgcEmpty, ctx, tr)
                          else
                            (0, none,
                              { ctx with
                                cells := pgc.nr_of_cells,
                                chapters := pgc.nr_of_programs,
                                blocks := lib.DVDFileSize f,
                                size := lib.DVDFileSize f * DVD_VIDEO_LB_LEN,
                                offset := 0 }, tr)

/-- `dvd_open` of the part_000 revision (lines 99-154): same steps up to the
title-count check, but only `title < 1` is replaced by 1 (no upper clamp), no
title-set IFO is loaded and no program chain is inspected; the title file is
opened directly after the title-set lookup. -/
def dvd_open_v0 (lib : Lib) (path : String) (ctx : DVDContext) :
    Int × Option OpenStep × DVDContext × List Ev :=
  let diskname := dvdStrip path
  match lib.DVDOpen diskname with
  | none => (eioErr, some OpenStep.discOpen, { ctx with dvd := none }, [])
  | some d =>
    let ctx := { ctx with dvd := some d }
    let pr := check_disc_info lib d
    let tr := Ev.acqDisc d :: pr.2
    if pr.1 < 0 then
      (eioErr, some OpenStep.probe, ctx, tr)
    else
      let vmgOpt := lib.ifoOpen d 0
      let ctx := { ctx with vmg := vmgOpt }
      let tr := tr ++ (match vmgOpt with
        | none => ([] : List Ev)
        | some hv => [Ev.acqIfo hv.hid])
      match vmgOpt with
      | none => (eioErr, some OpenStep.vmgLoad, ctx, tr)
      | some vmgH =>
        if vmgH.vmgi_mat = false then
          (eioErr, some OpenStep.vmgLoad, ctx, tr)
        else
          match vmgH.tt_srpt with
          | none => (eioErr, some OpenStep.vmgLoad, ctx, tr)
          | some tt =>
            let num_title_idx := tt.nr_of_srpts
            if num_title_idx < 1 then
              (eioErr, some OpenStep.titleCount, ctx, tr)
            else
              let ctx := if ctx.title < 1 then { ctx with title := 1 } else ctx
              let ctx := { ctx with title_set := (tt.title (ctx.title - 1)).title_set_nr }
              match lib.DVDOpenFile d ctx.title_set DVD_READ_TITLE_VOBS with
              | none => (eioErr, some OpenStep.fileOpen, { ctx with file := none }, tr)
              | some f =>
                (0, none,
                  { ctx with
                    file := some f,
                    blocks := lib.DVDFileSize f,
                    size := lib.DVDFileSize f * DVD_VIDEO_LB_LEN,
                    offset := 0 }, tr ++ [Ev.acqFile f])

/-- Iterate `dvd_read` a given number of times, collecting the returned codes. -/
def readRun (lib : Lib) (ctx : Option DVDContext) : Nat → List Int × Option DVDContext
  | 0 => ([], ctx)
  | n + 1 =>
    let r := dvd_read lib ctx
    let rest := readRun lib r.2.1 n
    (r.1 :: rest.1, rest.2)

/-! ### Concrete disc fixtures -/

/-- A title-table entry pointing at title set 1, vts_ttn 1. -/
def ttEnt1 : TTEntry := { title_set_nr := 1, vts_ttn := 1 }

/-- A one-entry title table. -/
def tt1 : TTSrpt := { nr_of_srpts := 1, title := fun _ => ttEnt1 }

/-- A three-entry title table. -/
def tt3 : TTSrpt := { nr_of_srpts := 3, title := fun _ => ttEnt1 }

/-- A title table reporting zero entries. -/
def tt0 : TTSrpt := { nr_of_srpts := 0, title := fun _ => ttEnt1 }

/-- Volume-level IFO of a disc with one usable title. -/
def vmgH10 : IfoHandle :=
  { hid := 11, vmgi_mat := true, tt_srpt := some tt1,
    vtsi_mat := false, vts_pgcit := none, vts_ptt_srpt := none }

/-- Title-set IFO with a well-formed one-cell, one-program chain. -/
def vtsH10 : IfoHandle :=
  { hid := 12, vmgi_mat := false, tt_srpt := none,
    vtsi_mat := true,
    vts_pgcit := some { pgci_srp := fun _ =>
      { pgc := some { cell_playback := true, nr_of_cells := 1, nr_of_programs := 1 } } },
    vts_ptt_srpt := some { title := some (fun _ => { ptt := fun _ => { pgcn := 1 } }) } }

/-- A healthy disc: one title, a 10-sector title file (disc handle 1, file
handle 2), the library serving one whole sector for each offset in [0, 10). -/
def lib10 : Lib :=
  { DVDOpen := fun _ => some 1,
    ifoOpen := fun _ i => if i = 0 then some vmgH10 else some vtsH10,
    DVDOpenFile := fun _ _ _ => some 2,
    DVDFileSize := fun _ => 10,
    DVDReadBlocks := fun _ off cnt => if 0 ≤ off ∧ off < 10 then min cnt (10 - off) else 0 }

/-- The session context produced by a successful `dvd_open` on `lib10`. -/
def openedCtx10 : DVDContext := (dvd_open lib10 "dvd:x" (initCtx (-1))).2.2.1

/-- Same disc with a one-sector title file. -/
def libB1 : Lib :=
  { lib10 with
    DVDFileSize := fun _ => 1,
    DVDReadBlocks := fun _ off cnt => if 0 ≤ off ∧ off < 1 then min cnt (1 - off) else 0 }

/-- The session context produced by a successful `dvd_open` on `libB1`. -/
def openedCtxB1 : DVDContext := (dvd_open libB1 "dvd:x" (initCtx (-1))).2.2.1

/-- Volume-level IFO of a disc with three usable titles. -/
def vmgH3 : IfoHandle :=
  { vmgH10 with tt_srpt := some tt3 }

/-- A disc with three usable titles, otherwise like `lib10`. -/
def lib3 : Lib :=
  { lib10 with ifoOpen := fun _ i => if i = 0 then some vmgH3 else some vtsH10 }

/-- Volume-level IFO whose title table reports zero entries. -/
def vmgH0 : IfoHandle :=
  { vmgH10 with tt_srpt := some tt0 }

/-- A disc whose title table reports zero usable titles. -/
def lib0 : Lib :=
  { lib10 with ifoOpen := fun _ i => if i = 0 then some vmgH0 else none }

/-- A volume that opens (disc handle 7) but whose top-level IFO is unreadable:
the playability probe fails right after the disc handle is acquired. -/
def lib4 : Lib :=
  { DVDOpen := fun _ => some 7,
    ifoOpen := fun _ _ => none,
    DVDOpenFile := fun _ _ _ => none,
    DVDFileSize := fun _ => 0,
    DVDReadBlocks := fun _ _ _ => 0 }

/-! ### Claim theorems -/

/-- C1: claimed that a session with `totalBlocks = B` serves exactly `B` reads
of 2048 bytes and first reports end-of-stream on the `(B+1)`-th call. The code
evaluated at the spec's own 10-sector scenario: the open succeeds with
`blocks = 10`, yet only the first 9 read calls return 2048 and the 10th call
already returns `AVERROR_EOF`, because `dvd_read` increments `offset` before
comparing it to `blocks` (the comment above that check in the source says the
check "isn't working ... quitting at EOF"). -/
theorem dvd_read_eof_one_call_early :
    (dvd_open lib10 "dvd:x" (initCtx (-1))).1 = 0 ∧
    openedCtx10.blocks = 10 ∧
    (readRun lib10 (some openedCtx10) 10).1
      = [2048, 2048, 2048, 2048, 2048, 2048, 2048, 2048, 2048, eofErr] := by
  refine ⟨by decide, by decide, by decide⟩

/-- C8 counterexample: the claim says Close releases `titleSetInfo` (vts)
first, then `volumeInfo` (vmg), then the disc handle. On the session opened
from `lib10` (vmg handle 11, vts handle 12, disc handle 1) the code's release
trace is vmg first, vts second — not the claimed order. -/
theorem dvd_close_order_cex :
    (dvd_close openedCtx10).2.2 = [Ev.relIfo 11, Ev.relIfo 12, Ev.relDisc 1] ∧
    (dvd_close openedCtx10).2.2 ≠ [Ev.relIfo 12, Ev.relIfo 11, Ev.relDisc 1] := by
  refine ⟨by decide, by decide⟩

/-- C8 amended: `dvd_close` returns 0, leaves the context untouched, and its
release trace is exactly: `volumeInfo` (vmg) if non-null, then `titleSetInfo`
(vts) if non-null, then the disc handle if non-null — a null handle is
silently skipped. -/
theorem dvd_close_release_order (ctx : DVDContext) :
    (dvd_close ctx).1 = 0 ∧
    (dvd_close ctx).2.1 = ctx ∧
    (dvd_close ctx).2.2 =
      (ctx.vmg.map (fun h => Ev.relIfo h.hid)).toList ++
      (ctx.vts.map (fun h => Ev.relIfo h.hid)).toList ++
      (ctx.dvd.map (fun d => Ev.relDisc d)).toList := by
  obtain ⟨dvd, vmg, vts, file, blocks, cells, chapters, size, offset, tset, title⟩ := ctx
  cases dvd <;> cases vmg <;> cases vts <;> simp [dvd_close]

/-- C9 counterexample: the claim says that after the first Close every handle
field is in a state the null guards recognize as already released, so a second
Close performs no release. The code never clears the fields: on the session
opened from `lib10`, the second Close re-issues all three releases — the same
non-empty trace as the first. -/
theorem dvd_close_double_release_cex :
    (dvd_close ((dvd_close openedCtx10).2.1)).2.2
      = [Ev.relIfo 11, Ev.relIfo 12, Ev.relDisc 1] ∧
    (dvd_close ((dvd_close openedCtx10).2.1)).2.2 ≠ [] := by
  refine ⟨by decide, by decide⟩

/-- C9 amended: `dvd_close` writes no context field, so a second Close on an
already-closed session issues exactly the same release operations again (a
double release of every handle that was acquired); only handles that were
never acquired (still null) are skipped by the guards. -/
theorem dvd_close_not_idempotent (ctx : DVDContext) :
    (dvd_close ctx).2.1 = ctx ∧
    (dvd_close ((dvd_close ctx).2.1)).2.2 = (dvd_close ctx).2.2 := by
  refine ⟨rfl, rfl⟩

/-- C3 counterexample: the claim says a requested title greater than the title
count deterministically selects title 1 in Open. In the part_000 revision,
requesting title 7 on a disc with 3 usable titles succeeds and keeps title 7
(only `title < 1` is replaced by 1 there; there is no upper clamp). -/
theorem dvd_open_v0_no_upper_clamp_cex :
    (dvd_open_v0 lib3 "dvd:x" (initCtx 7)).1 = 0 ∧
    (dvd_open_v0 lib3 "dvd:x" (initCtx 7)).2.2.1.title = 7 ∧
    (dvd_open_v0 lib3 "dvd:x" (initCtx 7)).2.2.1.title ≠ 1 := by
  refine ⟨by decide, by decide, by decide⟩

/-- C4 counterexample: the claim says every handle acquired before the failing
step is released before Open returns its error. On `lib4` the disc handle 7 is
acquired, the playability probe then fails, and `dvd_open` returns the error
with a trace containing the acquisition and no release: the disc handle is
still held (and still stored in the context) when Open returns. -/
theorem dvd_open_fail_no_release_cex :
    (dvd_open lib4 "dvd:x" (initCtx (-1))).1 = eioErr ∧
    (dvd_open lib4 "dvd:x" (initCtx (-1))).2.2.2 = [Ev.acqDisc 7] ∧
    Ev.relDisc 7 ∉ (dvd_open lib4 "dvd:x" (initCtx (-1))).2.2.2 ∧
    (dvd_open lib4 "dvd:x" (initCtx (-1))).2.2.1.dvd = some 7 := by
  refine ⟨by decide, by decide, by decide, by decide⟩

/-- C5 counterexample: the claim says no sequence of read calls moves the
cursor strictly above `totalBlocks`. On the one-sector session opened from
`libB1` (`blocks = 1`), two read calls leave `offset = 2 > 1`: `dvd_read`
increments the cursor unconditionally, also on calls past end-of-stream. -/
theorem cursor_exceeds_blocks_cex :
    (dvd_open libB1 "dvd:x" (initCtx (-1))).1 = 0 ∧
    openedCtxB1.blocks = 1 ∧ openedCtxB1.offset = 0 ∧
    (readRun libB1 (some openedCtxB1) 2).2 = some { openedCtxB1 with offset := 2 } ∧
    (2 : Int) > openedCtxB1.blocks := by
  refine ⟨by decide, by decide, by decide, rfl, by decide⟩

/-- C2: on an open session (non-null disc handle), `dvd_read` requests exactly
one sector at the current cursor, increments the cursor by exactly 1 in the
returned state, reports `AVERROR_EOF` iff the library returned zero sectors or
the incremented cursor has reached `blocks`, and otherwise returns 2048 —
given the library contract that a one-sector request yields 0 or 1 sectors. -/
theorem dvd_read_step (lib : Lib) (ctx : DVDContext) (d : Nat)
    (hd : ctx.dvd = some d)
    (h0 : 0 ≤ lib.DVDReadBlocks ctx.file ctx.offset 1)
    (h1 : lib.DVDReadBlocks ctx.file ctx.offset 1 ≤ 1) :
    (dvd_read lib (some ctx)).2.2 = [Ev.readReq ctx.file ctx.offset 1] ∧
    (dvd_read lib (some ctx)).2.1 = some { ctx with offset := ctx.offset + 1 } ∧
    ((dvd_read lib (some ctx)).1 = eofErr ↔
      (lib.DVDReadBlocks ctx.file ctx.offset 1 = 0 ∨ ctx.offset + 1 ≥ ctx.blocks)) ∧
    ((dvd_read lib (some ctx)).1 ≠ eofErr → (dvd_read lib (some ctx)).1 = 2048) := by
  simp only [dvd_read, hd, DVD_VIDEO_LB_LEN]
  split
  · rename_i hif
    refine ⟨by simp [hd], by simp [hd], ?_, fun hne => absurd rfl hne⟩
    refine ⟨fun _ => ?_, fun _ => rfl⟩
    rcases hif with h | h
    · left; omega
    · right; exact h
  · rename_i hif
    push_neg at hif
    refine ⟨by simp [hd], by simp [hd], ?_, fun _ => ?_⟩
    · refine ⟨fun he => ?_, fun hor => ?_⟩
      · exfalso; simp only [eofErr] at he; omega
      · exfalso
        rcases hor with h | h
        · exact hif.1 (by omega)
        · exact absurd h (by omega)
    · have hb1 : lib.DVDReadBlocks ctx.file ctx.offset 1 = 1 := by
        have := hif.1; omega
      show lib.DVDReadBlocks ctx.file ctx.offset 1 * 2048 = 2048
      rw [hb1]; norm_num

/-- Witness for C2: the theorem applied to the first read of the 10-sector
session, where the library serves exactly one sector. -/
theorem dvd_read_step_witness :
    (dvd_read lib10 (some openedCtx10)).2.2
      = [Ev.readReq openedCtx10.file openedCtx10.offset 1] ∧
    (dvd_read lib10 (some openedCtx10)).2.1
      = some { openedCtx10 with offset := openedCtx10.offset + 1 } ∧
    ((dvd_read lib10 (some openedCtx10)).1 = eofErr ↔
      (lib10.DVDReadBlocks openedCtx10.file openedCtx10.offset 1 = 0 ∨
        openedCtx10.offset + 1 ≥ openedCtx10.blocks)) ∧
    ((dvd_read lib10 (some openedCtx10)).1 ≠ eofErr →
      (dvd_read lib10 (some openedCtx10)).1 = 2048) :=
  dvd_read_step lib10 openedCtx10 1 (by decide) (by decide) (by decide)

/-- C3 amended: both revisions select a requested title in `[1, N]` as-is and
read the title-set index from the table entry at `effective title - 1`; a title
below 1 becomes title 1 in both. But only the dvd.c revision clamps a title
above the count back to 1 — the part_000 revision keeps the out-of-range title
and indexes the table with it. Stated for any disc whose volume info loads with
at least one usable title. -/
theorem title_resolution (lib : Lib) (path : String) (t : Int) (d : Nat)
    (vmgH : IfoHandle) (tt : TTSrpt)
    (h1 : lib.DVDOpen (dvdStrip path) = some d)
    (h2 : lib.ifoOpen d 0 = some vmgH)
    (h3 : vmgH.vmgi_mat = true)
    (h4 : vmgH.tt_srpt = some tt)
    (h5 : 1 ≤ tt.nr_of_srpts) :
    ((dvd_open lib path (initCtx t)).2.2.1.title
        = if t < 1 ∨ t > tt.nr_of_srpts then 1 else t) ∧
    ((dvd_open lib path (initCtx t)).2.2.1.title_set
        = (tt.title ((if t < 1 ∨ t > tt.nr_of_srpts then 1 else t) - 1)).title_set_nr) ∧
    ((dvd_open_v0 lib path (initCtx t)).2.2.1.title = if t < 1 then 1 else t) ∧
    ((dvd_open_v0 lib path (initCtx t)).2.2.1.title_set
        = (tt.title ((if t < 1 then 1 else t) - 1)).title_set_nr) := by
  have hcount : ¬ tt.nr_of_srpts < 1 := by omega
  refine ⟨?_, ?_, ?_, ?_⟩ <;>
  · simp only [dvd_open, dvd_open_v0, check_disc_info, h1, h2, h3, h4, initCtx]
    norm_num
    rw [if_neg hcount]
    repeat' split
    all_goals simp_all

/-- Witness for C3: requesting title 2 on the three-title disc selects title 2
in both revisions, with the title set read from table entry 1. -/
theorem title_resolution_witness :
    ((dvd_open lib3 "dvd:x" (initCtx 2)).2.2.1.title
        = if (2:Int) < 1 ∨ (2:Int) > tt3.nr_of_srpts then 1 else 2) ∧
    ((dvd_open lib3 "dvd:x" (initCtx 2)).2.2.1.title_set
        = (tt3.title ((if (2:Int) < 1 ∨ (2:Int) > tt3.nr_of_srpts then 1 else 2) - 1)).title_set_nr) ∧
    ((dvd_open_v0 lib3 "dvd:x" (initCtx 2)).2.2.1.title = if (2:Int) < 1 then 1 else 2) ∧
    ((dvd_open_v0 lib3 "dvd:x" (initCtx 2)).2.2.1.title_set
        = (tt3.title ((if (2:Int) < 1 then 1 else 2) - 1)).title_set_nr) :=
  title_resolution lib3 "dvd:x" 2 1 vmgH3 tt3 rfl rfl rfl rfl (by decide)

/-- C4 amended: neither revision of `dvd_open` ever performs a release: every
event in its acquisition trace is a non-release event, on failing and
successful runs alike. Handles acquired before a failing step stay held (and,
apart from the probe handle, stay stored in the context) when the error is
returned; teardown is left to a later `dvd_close`. -/
theorem dvd_open_no_release (lib : Lib) (path : String) (ctx : DVDContext) :
    ((dvd_open lib path ctx).2.2.2.all (fun e => !e.isRelease)) = true ∧
    ((dvd_open_v0 lib path ctx).2.2.2.all (fun e => !e.isRelease)) = true := by
  constructor <;>
  · simp only [dvd_open, dvd_open_v0, check_disc_info]
    repeat' split
    all_goals simp [Ev.isRelease, List.all_append]

/-- C5 amended: the cursor is 0 right after a successful open, and each read
call on an open session increments it by exactly 1 unconditionally — after `k`
read calls it sits at `initial + k`, which exceeds `totalBlocks` once calls
continue past end-of-stream. -/
theorem cursor_after_reads :
    (∀ (lib : Lib) (path : String) (c0 : DVDContext),
      (dvd_open lib path c0).1 = 0 → (dvd_open lib path c0).2.2.1.offset = 0) ∧
    (∀ (lib : Lib) (ctx : DVDContext) (d : Nat) (k : Nat), ctx.dvd = some d →
      (readRun lib (some ctx) k).2 = some { ctx with offset := ctx.offset + (k : Int) }) := by
  constructor
  · intro lib path c0
    simp only [dvd_open, check_disc_info]
    repeat' split
    all_goals intro h
    all_goals simp_all [eioErr]
  · intro lib ctx d k hd
    induction k generalizing ctx with
    | zero => simp [readRun]
    | succ n ih =>
      have hstep : (dvd_read lib (some ctx)).2.1 = some { ctx with offset := ctx.offset + 1 } := by
        simp only [dvd_read, hd]
        split <;> rfl
      have hd' : ({ ctx with offset := ctx.offset + 1 } : DVDContext).dvd = some d := hd
      simp only [readRun]
      rw [hstep, ih _ hd']
      obtain ⟨cdvd, cvmg, cvts, cfile, cblocks, ccells, cchap, csize, coff, cts, ctitle⟩ := ctx
      simp only [Option.some.injEq, DVDContext.mk.injEq, true_and, and_true]
      omega

/-- Witness for C5: the 10-sector open leaves the cursor at 0, and three reads
on that session move it to exactly 3. -/
theorem cursor_after_reads_witness :
    (dvd_open lib10 "dvd:x" (initCtx (-1))).2.2.1.offset = 0 ∧
    (readRun lib10 (some openedCtx10) 3).2
      = some { openedCtx10 with offset := openedCtx10.offset + ((3:Nat) : Int) } :=
  ⟨cursor_after_reads.1 lib10 "dvd:x" (initCtx (-1)) (by decide),
   cursor_after_reads.2 lib10 openedCtx10 1 3 (by decide)⟩

/-- C6: on a disc that opens and whose volume info loads with a valid info
block and title table, a reported title count below 1 makes `dvd_open` fail at
the title-count check — the step the spec classifies as `NavigationError` —
returning `AVERROR(EIO)` and no successfully opened session. -/
theorem zero_titles_open_fails (lib : Lib) (path : String) (t : Int) (d : Nat)
    (vmgH : IfoHandle) (tt : TTSrpt)
    (h1 : lib.DVDOpen (dvdStrip path) = some d)
    (h2 : lib.ifoOpen d 0 = some vmgH)
    (h3 : vmgH.vmgi_mat = true)
    (h4 : vmgH.tt_srpt = some tt)
    (h5 : tt.nr_of_srpts < 1) :
    (dvd_open lib path (initCtx t)).1 = eioErr ∧
    (dvd_open lib path (initCtx t)).2.1 = some OpenStep.titleCount ∧
    errClassOf OpenStep.titleCount = ErrKind.NavigationError := by
  simp only [dvd_open, check_disc_info, h1, h2, h3, h4]
  norm_num
  rw [if_pos h5]
  exact ⟨rfl, rfl, rfl⟩

/-- Witness for C6: the zero-title disc `lib0` makes open fail at the
title-count step. -/
theorem zero_titles_open_fails_witness :
    (dvd_open lib0 "dvd:x" (initCtx (-1))).1 = eioErr ∧
    (dvd_open lib0 "dvd:x" (initCtx (-1))).2.1 = some OpenStep.titleCount ∧
    errClassOf OpenStep.titleCount = ErrKind.NavigationError :=
  zero_titles_open_fails lib0 "dvd:x" (-1) 1 vmgH0 tt0 rfl rfl rfl rfl (by decide)

/-- C7: on an open session (non-null disc handle), `dvd_seek` returns
`AVERROR(EINVAL)` for every position and whence, leaves the session state
unchanged, and a subsequent read on the post-seek state behaves exactly as a
read on the pre-seek state. -/
theorem dvd_seek_einval (lib : Lib) (ctx : DVDContext) (d : Nat) (pos whence : Int)
    (hd : ctx.dvd = some d) :
    dvd_seek (some ctx) pos whence = (einvalErr, some ctx) ∧
    dvd_read lib (dvd_seek (some ctx) pos whence).2 = dvd_read lib (some ctx) := by
  have h : dvd_seek (some ctx) pos whence = (einvalErr, some ctx) := by
    simp only [dvd_seek, hd]
  exact ⟨h, by rw [h]⟩

/-- Witness for C7: seeking to position 123 with whence 0 on the opened
10-sector session. -/
theorem dvd_seek_einval_witness :
    dvd_seek (some openedCtx10) 123 0 = (einvalErr, some openedCtx10) ∧
    dvd_read lib10 (dvd_seek (some openedCtx10) 123 0).2 = dvd_read lib10 (some openedCtx10) :=
  dvd_seek_einval lib10 openedCtx10 1 123 0 (by decide)

/-- C10: with a null session context or a null disc handle, `dvd_read` and
`dvd_seek` both return `AVERROR(EFAULT)` immediately — no sector-read request
is issued, the state (hence the cursor) is untouched — and `EFAULT` is distinct
from the `EIO`, `EINVAL` and `AVERROR_EOF` codes of the other failure classes. -/
theorem null_guard_efault (lib : Lib) (ctx : Option DVDContext) (pos whence : Int)
    (h : ctx = none ∨ ∃ c, ctx = some c ∧ c.dvd = none) :
    (dvd_read lib ctx).1 = efaultErr ∧
    (dvd_read lib ctx).2.1 = ctx ∧
    (dvd_read lib ctx).2.2 = [] ∧
    dvd_seek ctx pos whence = (efaultErr, ctx) ∧
    efaultErr ≠ eioErr ∧ efaultErr ≠ einvalErr ∧ efaultErr ≠ eofErr := by
  rcases h with rfl | ⟨c, rfl, hc⟩
  · exact ⟨rfl, rfl, rfl, rfl, by decide, by decide, by decide⟩
  · have hr : dvd_read lib (some c) = (efaultErr, some c, []) := by
      simp only [dvd_read, hc]
    have hs : dvd_seek (some c) pos whence = (efaultErr, some c) := by
      simp only [dvd_seek, hc]
    rw [hr, hs]
    exact ⟨rfl, rfl, rfl, rfl, by decide, by decide, by decide⟩

/-- Witness for C10: calling read and seek before any open (null context). -/
theorem null_guard_efault_witness :
    (dvd_read lib10 none).1 = efaultErr ∧
    (dvd_read lib10 none).2.1 = none ∧
    (dvd_read lib10 none).2.2 = [] ∧
    dvd_seek none 5 1 = (efaultErr, none) ∧
    efaultErr ≠ eioErr ∧ efaultErr ≠ einvalErr ∧ efaultErr ≠ eofErr :=
  null_guard_efault lib10 none 5 1 (Or.inl rfl)

end DvdProto
